import Mathlib

/-!
Shallow embedding of the moto sources under verification:
  * `src/moto/ds/exceptions.py` (the Directory Service validation exception),
  * `src/moto/route53resolver/models.py` (the Route53Resolver backend).
Definitions are translated from the source; components of the repository that
are not present under `src/` (the validations module, the tagging service, the
EC2 backend lookups) are modelled from the specification and say so in their
doc comments.
-/

namespace Moto

/-! ### Directory Service exceptions (`src/moto/ds/exceptions.py`) -/

/-- A structured error as `JsonRESTError` carries it: an error-type string and
a message string. -/
structure JsonRESTError where
  error_type : String
  message : String
deriving Repr, DecidableEq

/-- One validation violation: (parameter name, parameter value, constraint
description), as the tuples handed to `DsValidationException.__init__`. -/
abbrev ErrorTuple := String × String × String

/-- One rendered clause of the loop body of `DsValidationException.__init__`:
`value = "at" if arg_name == "password" else f"'{arg_value}' at"`, then
`f"Value {value} '{arg_name}' failed to satisfy constraint: Member must {constraint}"`. -/
def dsViolationClause (t : ErrorTuple) : String :=
  let value := if t.1 = "password" then "at" else "'" ++ t.2.1 ++ "' at"
  "Value " ++ value ++ " '" ++ t.1 ++ "' failed to satisfy constraint: " ++
    "Member must " ++ t.2.2

/-- The `msg_leader` of `DsValidationException.__init__`:
`f"{len} validation error{'s' if len > 1 else ''} detected: "`. -/
def dsMsgLeader (n : Nat) : String :=
  toString n ++ " validation error" ++ (if n > 1 then "s" else "") ++ " detected: "

/-- `DsValidationException(error_tuples)`: code `"ValidationException"`, message
the leader followed by the clauses joined with `"; "`. -/
def DsValidationException (error_tuples : List ErrorTuple) : JsonRESTError :=
  { error_type := "ValidationException"
    message := dsMsgLeader error_tuples.length ++
      String.intercalate "; " (error_tuples.map dsViolationClause) }

/-! Spec-side renderings for claim C1 (refinement-side definitions following
the claim's words, to be compared with the ones read off the source). -/

/-- The count header exactly as claim C1 words it: `K validation error(s)
detected`, singular `error` exactly when `K = 1`. -/
def claimedHeader (k : Nat) : String :=
  toString k ++ " validation error" ++ (if k = 1 then "" else "s") ++ " detected"

/-- The clause form claim C1 asserts for every tuple:
`Value '<value>' at '<field-name>' failed to satisfy constraint: Member must
<constraint-description>`. -/
def claimedClause (t : ErrorTuple) : String :=
  "Value '" ++ t.2.1 ++ "' at '" ++ t.1 ++
    "' failed to satisfy constraint: Member must " ++ t.2.2

/-- The whole message as claim C1 describes it: the count header, then the
clauses in supplied order joined with `"; "`. -/
def claimedMessage (ts : List ErrorTuple) : String :=
  claimedHeader ts.length ++ ": " ++ String.intercalate "; " (ts.map claimedClause)

/-- A tuple-for-tuple variant relation: same field name, same constraint
description, and the same value except possibly at a field named `password`. -/
def passwordVariant (a b : ErrorTuple) : Prop :=
  a.1 = b.1 ∧ a.2.2 = b.2.2 ∧ (a.1 ≠ "password" → a.2.1 = b.2.1)

/-! ### Route53Resolver backend (`src/moto/route53resolver/models.py`) -/

/-- Modelled from the spec: the EC2 backend and the stdlib `ipaddress` module
are not under `src/`. An IPv4 CIDR block; addresses are held numerically. -/
structure Cidr where
  base : Nat
  prefixLen : Nat
deriving Repr, DecidableEq

/-- Membership of a numeric IPv4 address in a CIDR block, the check the source
writes `ip_address(ip_addr) in ip_network(subnet_info.cidr_block)`. -/
def ipInNetwork (ip : Nat) (c : Cidr) : Bool :=
  ip / 2 ^ (32 - c.prefixLen) == c.base / 2 ^ (32 - c.prefixLen)

/-- Modelled from the spec: an EC2 subnet record as the Cross-Service Resolver
returns it — its VPC id and its CIDR block. -/
structure Subnet where
  vpc_id : String
  cidr_block : Cidr
deriving Repr, DecidableEq

/-- Modelled from the spec: the slice of one region's EC2 registry the resolver
backend queries — subnets keyed by id, and the existing security-group ids. -/
structure Ec2Backend where
  subnets : List (String × Subnet)
  security_groups : List String
deriving Repr, DecidableEq

/-- Modelled from the spec: `ec2_backends[region].get_all_subnets(subnet_ids=[sid])[0]`;
`none` stands for the raised `InvalidSubnetIdError`. -/
def get_all_subnets (ec2 : Ec2Backend) (subnet_id : String) : Option Subnet :=
  (ec2.subnets.find? (fun p => p.1 == subnet_id)).map (fun p => p.2)

/-- Modelled from the spec: `describe_security_groups(group_ids=[gid])`; `false`
stands for the raised `InvalidSecurityGroupNotFoundError`. -/
def describe_security_groups (ec2 : Ec2Backend) (group_id : String) : Bool :=
  ec2.security_groups.contains group_id

/-- One entry of the `IpAddresses` request parameter: a subnet id and an IP
address (held numerically, see `Cidr`). -/
structure IpAddressRequest where
  SubnetId : String
  Ip : Nat
deriving Repr, DecidableEq

/-- The exceptions the modelled operations can raise: the service's own
exception classes, the foreign EC2 `InvalidSubnetIdError`, and the Python
`IndexError`/`KeyError` slips only reachable past a failed internal invariant. -/
inductive RErr where
  | validationException (message : String)
  | invalidParameterException (message : String)
  | invalidRequestException (message : String)
  | resourceNotFoundException (message : String)
  | invalidSubnetIdError (subnet_id : String)
  | indexError
  | keyError
deriving Repr, DecidableEq

instance exceptDecidableEq {ε α : Type} [DecidableEq ε] [DecidableEq α] :
    DecidableEq (Except ε α) := fun a b =>
  match a, b with
  | .error e1, .error e2 =>
    if h : e1 = e2 then .isTrue (h ▸ rfl)
    else .isFalse fun hc => h (Except.error.inj hc)
  | .ok a1, .ok a2 =>
    if h : a1 = a2 then .isTrue (h ▸ rfl)
    else .isFalse fun hc => h (Except.ok.inj hc)
  | .error _, .ok _ => .isFalse fun hc => Except.noConfusion hc
  | .ok _, .error _ => .isFalse fun hc => Except.noConfusion hc

/-! Validators. Modelled from the spec: the `moto.route53resolver.validations`
module is not under `src/`; §4.1 describes them as pure checks (regex, length,
enum, structural shape) returning a constraint description on failure. The
exact limits below are representative; no claim depends on their wording. -/

/-- Modelled from the spec: format check on `creatorRequestId` (length bound). -/
def validate_creator_request_id (v : String) : Option String :=
  if 1 ≤ v.length && v.length ≤ 255 then none
  else some "have length less than or equal to 255"

/-- Modelled from the spec: enum check on `direction`. -/
def validate_direction (v : String) : Option String :=
  if v = "INBOUND" || v = "OUTBOUND" then none
  else some "satisfy enum value set: [INBOUND, OUTBOUND]"

/-- Modelled from the spec: length check on the `ipAddresses` list. -/
def validate_ip_addresses (v : List IpAddressRequest) : Option String :=
  if 1 ≤ v.length && v.length ≤ 10 then none
  else some "have length less than or equal to 10"

/-- Modelled from the spec: length check on the optional `name`. -/
def validate_name (v : Option String) : Option String :=
  match v with
  | none => none
  | some s => if s.length ≤ 64 then none else some "have length less than or equal to 64"

/-- Modelled from the spec: length check on each security-group id. -/
def validate_security_group_ids (v : List String) : Option String :=
  if v.all (fun g => g.length ≤ 64) then none
  else some "have length less than or equal to 64"

/-- No string occurs twice in the list. -/
def distinctStrings : List String → Bool
  | [] => true
  | x :: xs => !(xs.contains x) && distinctStrings xs

/-- Modelled from the spec: the structural check on `ipAddresses.subnetId`
(distinct subnet entries, §4.1). -/
def validate_subnets (v : List IpAddressRequest) : Option String :=
  if distinctStrings (v.map (fun x => x.SubnetId)) then none
  else some "be distinct subnet ids"

/-- Modelled from the spec: format check on `resolverEndpointId` (length bound). -/
def validate_endpoint_id (v : String) : Option String :=
  if v.length ≤ 64 then none else some "have length less than or equal to 64"

/-- Modelled from the spec: `validate_args` runs every supplied check, collects
every (field-name, rendered value, constraint) violation in declared order, and
fails as one batched `ValidationException` when any check failed (§4.1, the
same message format as `DsValidationException`). A check arrives here already
applied: (field name, rendered value, check result). -/
def validate_args (checks : List (String × String × Option String)) : Except RErr Unit :=
  let violations := checks.filterMap
    (fun c => c.2.2.map (fun constraint => (c.1, c.2.1, constraint)))
  if violations = [] then .ok ()
  else .error (.validationException
    (dsMsgLeader violations.length ++
      String.intercalate "; " (violations.map dsViolationClause)))

/-- Rendering of a string list for a violation message. -/
def renderStringList (l : List String) : String :=
  "[" ++ String.intercalate ", " l ++ "]"

/-- Rendering of the `ipAddresses` parameter for a violation message. -/
def renderIpAddresses (l : List IpAddressRequest) : String :=
  renderStringList (l.map (fun x => x.SubnetId))

/-- Rendering of the optional `name` for a violation message. -/
def renderOptName : Option String → String
  | none => "None"
  | some s => s

/-- `ACCOUNT_ID` from `moto.core` (not under `src/`): the fixed test account. -/
def ACCOUNT_ID : String := "123456789012"

/-- `ResolverEndpoint`: the record `__init__` constructs. -/
structure ResolverEndpoint where
  region : String
  creator_request_id : String
  name : Option String
  security_group_ids : List String
  direction : String
  ip_addresses : List IpAddressRequest
  id : String
  ip_address_count : Nat
  host_vpc_id : String
  status : String
  status_message : String
  creation_time : String
  modification_time : String
deriving Repr, DecidableEq

/-- `ResolverEndpoint.arn`. -/
def ResolverEndpoint.arn (e : ResolverEndpoint) : String :=
  "arn:aws:route53resolver:" ++ e.region ++ ":" ++ ACCOUNT_ID ++
    ":resolver-endpoint/" ++ e.id

/-- `ResolverEndpoint.__init__` with `_vpc_id_from_subnet` inlined. The two
error outcomes mirror the exceptions Python would raise there (`IndexError` on
an empty `ip_addresses`, `InvalidSubnetIdError` from the subnet lookup); both
are unreachable from `create_resolver_endpoint` once `_verify_subnet_ips` has
passed. -/
def mkResolverEndpoint (ec2 : Ec2Backend) (region endpoint_id creator_request_id : String)
    (security_group_ids : List String) (direction : String)
    (ip_addresses : List IpAddressRequest) (name : Option String) (now : String) :
    Except RErr ResolverEndpoint :=
  match ip_addresses with
  | [] => .error .indexError
  | x :: _ =>
    match get_all_subnets ec2 x.SubnetId with
    | none => .error (.invalidSubnetIdError x.SubnetId)
    | some subnet_info =>
      .ok { region := region, creator_request_id := creator_request_id, name := name,
            security_group_ids := security_group_ids, direction := direction,
            ip_addresses := ip_addresses, id := endpoint_id, ip_address_count := 0,
            host_vpc_id := subnet_info.vpc_id, status := "OPERATIONAL",
            status_message := "[Trace id: x] Creating the Resolver Endpoint",
            creation_time := now, modification_time := now }

/-- The public description shape, field for field as
`ResolverEndpoint.description` builds it. -/
structure EndpointDescription where
  Id : String
  CreatorRequestId : String
  Arn : String
  Name : Option String
  SecurityGroupIds : List String
  Direction : String
  IpAddressCount : Nat
  HostVPCId : String
  Status : String
  StatusMessage : String
  CreationTime : String
  ModificationTime : String
deriving Repr, DecidableEq

/-- `ResolverEndpoint.description`: note the literal `0` for `IpAddressCount`,
as in the source. -/
def ResolverEndpoint.description (e : ResolverEndpoint) : EndpointDescription :=
  { Id := e.id, CreatorRequestId := e.creator_request_id, Arn := e.arn,
    Name := e.name, SecurityGroupIds := e.security_group_ids,
    Direction := e.direction, IpAddressCount := 0, HostVPCId := e.host_vpc_id,
    Status := e.status, StatusMessage := e.status_message,
    CreationTime := e.creation_time, ModificationTime := e.modification_time }

/-! Association lists standing for Python dicts: insertion order kept, one
entry per key, assignment replaces in place. -/

/-- Dict lookup `d[k]` / `d.get(k)` as an `Option`. -/
def assocLookup {α : Type} : List (String × α) → String → Option α
  | [], _ => none
  | p :: ps, k => if p.1 = k then some p.2 else assocLookup ps k

/-- Dict assignment `d[k] = v`: replace in place, or append when absent. -/
def assocSet {α : Type} : List (String × α) → String → α → List (String × α)
  | [], k, v => [(k, v)]
  | p :: ps, k, v => if p.1 = k then (k, v) :: ps else p :: assocSet ps k v

/-- Dict removal, the mapping effect of `d.pop(k)` / `del d[k]`. -/
def assocRemove {α : Type} : List (String × α) → String → List (String × α)
  | [], _ => []
  | p :: ps, k => if p.1 = k then assocRemove ps k else p :: assocRemove ps k

/-! Tagging. Modelled from the spec: `moto.utilities.tagging_service` is not
under `src/`; §6 gives the sub-interface `tag`, `delete_all_tags`, `list_tags`
keyed by resource id, tags being ordered (key, value) pairs. -/

abbrev Tags := List (String × String)

abbrev Tagger := List (String × Tags)

/-- Modelled from the spec: `TaggingService.list_tags_for_resource`. -/
def list_tags_for_resource (tagger : Tagger) (rid : String) : Tags :=
  (assocLookup tagger rid).getD []

/-- Modelled from the spec: `TaggingService.tag_resource` appends the supplied
pairs to the resource's tag list. -/
def tag_resource (tagger : Tagger) (rid : String) (tags : Tags) : Tagger :=
  assocSet tagger rid (list_tags_for_resource tagger rid ++ tags)

/-- Modelled from the spec: `TaggingService.delete_all_tags_for_resource`. -/
def delete_all_tags_for_resource (tagger : Tagger) (rid : String) : Tagger :=
  assocRemove tagger rid

/-- `Route53ResolverBackend`'s per-region state: the `resolver_endpoints` dict
(keyed by endpoint id, as line 223 inserts it) and the tagging service. -/
structure Backend where
  region_name : String
  resolver_endpoints : List (String × ResolverEndpoint)
  tagger : Tagger
deriving Repr, DecidableEq

/-- Dict lookup in `resolver_endpoints`. -/
def lookupEndpoint (l : List (String × ResolverEndpoint)) (k : String) :
    Option ResolverEndpoint :=
  assocLookup l k

/-- Dict assignment `self.resolver_endpoints[endpoint_id] = resolver_endpoint`:
replace the entry when the key is present, append otherwise. -/
def insertEndpoint (l : List (String × ResolverEndpoint)) (k : String)
    (v : ResolverEndpoint) : List (String × ResolverEndpoint) :=
  assocSet l k v

/-- Dict removal `self.resolver_endpoints.pop(resolver_endpoint_id)`'s effect
on the mapping. -/
def removeEndpoint (l : List (String × ResolverEndpoint)) (k : String) :
    List (String × ResolverEndpoint) :=
  assocRemove l k

/-- The per-entry loop of `_verify_subnet_ips`: existence of each subnet, then
the CIDR-range check, failing at the first bad entry. -/
def verifySubnetIpsLoop (ec2 : Ec2Backend) : List IpAddressRequest → Except RErr Unit
  | [] => .ok ()
  | x :: rest =>
    match get_all_subnets ec2 x.SubnetId with
    | none => .error (.invalidParameterException
        ("The subnet ID '" ++ x.SubnetId ++ "' does not exist"))
    | some subnet_info =>
      if ipInNetwork x.Ip subnet_info.cidr_block then verifySubnetIpsLoop ec2 rest
      else .error (.invalidRequestException
        ("IP address '" ++ toString x.Ip ++ "' is either not in subnet '" ++
          x.SubnetId ++ "' CIDR range or is reserved"))

/-- `Route53ResolverBackend._verify_subnet_ips`. -/
def verify_subnet_ips (ec2 : Ec2Backend) (ip_addresses : List IpAddressRequest) :
    Except RErr Unit :=
  if ip_addresses.length < 2 then
    .error (.invalidRequestException
      "Resolver endpoint needs to have at least 2 IP addresses")
  else verifySubnetIpsLoop ec2 ip_addresses

/-- Python's `str.startswith`, modelled on the character level (the byte-level
`String.startsWith` of the Lean library is opaque to kernel evaluation). -/
def strStartsWith (s p : String) : Bool :=
  p.data.isPrefixOf s.data

/-- The per-group loop of `_verify_security_group_ids`. -/
def verifySecurityGroupLoop (ec2 : Ec2Backend) : List String → Except RErr Unit
  | [] => .ok ()
  | g :: rest =>
    if !(strStartsWith g "sg-") then
      .error (.invalidParameterException
        ("Malformed security group ID: Invalid id: '" ++ g ++ "' (expecting 'sg-...')"))
    else if describe_security_groups ec2 g then verifySecurityGroupLoop ec2 rest
    else .error (.resourceNotFoundException
      ("The security group '" ++ g ++ "' does not exist"))

/-- `Route53ResolverBackend._verify_security_group_ids`. -/
def verify_security_group_ids (ec2 : Ec2Backend) (security_group_ids : List String) :
    Except RErr Unit :=
  if security_group_ids.length > 10 then
    .error (.invalidParameterException "Maximum of 10 security groups are allowed")
  else verifySecurityGroupLoop ec2 security_group_ids

/-- The parameters of `create_resolver_endpoint`, bundled. -/
structure CreateArgs where
  region : String
  creator_request_id : String
  name : Option String
  security_group_ids : List String
  direction : String
  ip_addresses : List IpAddressRequest
  tags : Option Tags
deriving Repr, DecidableEq

/-- The batched format validation at the head of `create_resolver_endpoint`,
with the six checks in their declared order. -/
def createValidateArgs (args : CreateArgs) : Except RErr Unit :=
  validate_args
    [("creatorRequestId", args.creator_request_id,
        validate_creator_request_id args.creator_request_id),
     ("direction", args.direction, validate_direction args.direction),
     ("ipAddresses", renderIpAddresses args.ip_addresses,
        validate_ip_addresses args.ip_addresses),
     ("name", renderOptName args.name, validate_name args.name),
     ("securityGroupIds", renderStringList args.security_group_ids,
        validate_security_group_ids args.security_group_ids),
     ("ipAddresses.subnetId", renderIpAddresses args.ip_addresses,
        validate_subnets args.ip_addresses)]

/-- The endpoint id built at lines 211–213 of the source:
`f"rslvr-{'in' if direction == 'INBOUND' else 'out'}-{get_random_hex(17)}"`. -/
def generatedEndpointId (direction randomHex : String) : String :=
  "rslvr-" ++ (if direction = "INBOUND" then "in" else "out") ++ "-" ++ randomHex

/-- `Route53ResolverBackend.create_resolver_endpoint`, state-threaded: the
result pairs (raised exception or returned record) with the backend afterwards.
Statement order follows the source: batched validation, subnet-IP checks,
security-group checks, id generation, record construction, then — and only
then — registry insertion and tag attachment. `randomHex` stands for the value
`get_random_hex(17)` returned and `now` for the clock readings. -/
def create_resolver_endpoint (b : Backend) (ec2 : Ec2Backend) (args : CreateArgs)
    (randomHex : String) (now : String) : Except RErr ResolverEndpoint × Backend :=
  match createValidateArgs args with
  | .error e => (.error e, b)
  | .ok () =>
  match verify_subnet_ips ec2 args.ip_addresses with
  | .error e => (.error e, b)
  | .ok () =>
  match verify_security_group_ids ec2 args.security_group_ids with
  | .error e => (.error e, b)
  | .ok () =>
    match mkResolverEndpoint ec2 args.region (generatedEndpointId args.direction randomHex)
        args.creator_request_id args.security_group_ids args.direction
        args.ip_addresses args.name now with
    | .error e => (.error e, b)
    | .ok resolver_endpoint =>
      (.ok resolver_endpoint,
        { b with
          resolver_endpoints := insertEndpoint b.resolver_endpoints
            (generatedEndpointId args.direction randomHex) resolver_endpoint,
          tagger := tag_resource b.tagger (generatedEndpointId args.direction randomHex)
            (args.tags.getD []) })

/-- `Route53ResolverBackend._validate_resolver_endpoint_id`. -/
def validate_resolver_endpoint_id (b : Backend) (resolver_endpoint_id : String) :
    Except RErr Unit :=
  match validate_args
      [("resolverEndpointId", resolver_endpoint_id,
        validate_endpoint_id resolver_endpoint_id)] with
  | .error e => .error e
  | .ok () =>
    if (lookupEndpoint b.resolver_endpoints resolver_endpoint_id).isSome then .ok ()
    else .error (.resourceNotFoundException
      ("Resolver endpoint with ID '" ++ resolver_endpoint_id ++ "' does not exist"))

/-- `Route53ResolverBackend.get_resolver_endpoint`: the method body in the
source is `pass`, so the call performs nothing and returns `None`. -/
def get_resolver_endpoint (b : Backend) (resolver_endpoint_id : String) :
    Option ResolverEndpoint :=
  none

/-- `Route53ResolverBackend.delete_resolver_endpoint`, state-threaded as
`create_resolver_endpoint`: validate the id, delete all its tags, pop the
record, flip its status to DELETING, return it. `keyError` mirrors `dict.pop`
on a missing key, unreachable after `_validate_resolver_endpoint_id`. -/
def delete_resolver_endpoint (b : Backend) (resolver_endpoint_id : String) :
    Except RErr ResolverEndpoint × Backend :=
  match validate_resolver_endpoint_id b resolver_endpoint_id with
  | .error e => (.error e, b)
  | .ok () =>
    let tagger' := delete_all_tags_for_resource b.tagger resolver_endpoint_id
    match lookupEndpoint b.resolver_endpoints resolver_endpoint_id with
    | none => (.error .keyError, { b with tagger := tagger' })
    | some resolver_endpoint =>
      (.ok { resolver_endpoint with status := "DELETING" },
       { b with
         tagger := tagger',
         resolver_endpoints := removeEndpoint b.resolver_endpoints resolver_endpoint_id })

/-- A lowercase hexadecimal digit, as `get_random_hex` emits them. -/
def isLowerHexDigit (c : Char) : Bool :=
  c.isDigit || (decide (97 ≤ c.toNat) && decide (c.toNat ≤ 102))

/-! ### Concrete fixtures for witnesses and counterexamples -/

/-- Subnet 10.0.1.0/24 (base 167772416). -/
def subnetA : Subnet :=
  { vpc_id := "vpc-12345678", cidr_block := { base := 167772416, prefixLen := 24 } }

/-- Subnet 10.0.0.0/24 (base 167772160). -/
def subnetB : Subnet :=
  { vpc_id := "vpc-12345678", cidr_block := { base := 167772160, prefixLen := 24 } }

def ec2Fixture : Ec2Backend :=
  { subnets := [("subnet-aaaa", subnetA), ("subnet-bbbb", subnetB)],
    security_groups := ["sg-0123456789"] }

def emptyBackend : Backend :=
  { region_name := "us-west-2", resolver_endpoints := [], tagger := [] }

def argsFixture : CreateArgs :=
  { region := "us-west-2", creator_request_id := "req-1", name := some "endpoint-a",
    security_group_ids := ["sg-0123456789"], direction := "INBOUND",
    ip_addresses := [{ SubnetId := "subnet-aaaa", Ip := 167772421 },
                     { SubnetId := "subnet-bbbb", Ip := 167772165 }],
    tags := some [("env", "test")] }

/-- The record `create_resolver_endpoint` builds for `argsFixture` with random
hex `"abcdef0123456789a"` at time `"t0"`. -/
def epFixture : ResolverEndpoint :=
  { region := "us-west-2", creator_request_id := "req-1", name := some "endpoint-a",
    security_group_ids := ["sg-0123456789"], direction := "INBOUND",
    ip_addresses := [{ SubnetId := "subnet-aaaa", Ip := 167772421 },
                     { SubnetId := "subnet-bbbb", Ip := 167772165 }],
    id := "rslvr-in-abcdef0123456789a", ip_address_count := 0,
    host_vpc_id := "vpc-12345678", status := "OPERATIONAL",
    status_message := "[Trace id: x] Creating the Resolver Endpoint",
    creation_time := "t0", modification_time := "t0" }

/-- A backend already holding `epFixture` (with its creation tags attached). -/
def b1 : Backend :=
  { region_name := "us-west-2",
    resolver_endpoints := [("rslvr-in-abcdef0123456789a", epFixture)],
    tagger := [("rslvr-in-abcdef0123456789a", [("env", "test")])] }

/-- `argsFixture` with an invalid `direction`. -/
def argsBadDirection : CreateArgs := { argsFixture with direction := "NEITHER" }

/-- The batched validation error `argsBadDirection` produces. -/
def errBadDirection : RErr :=
  .validationException
    ("1 validation error detected: Value 'NEITHER' at 'direction' failed to " ++
     "satisfy constraint: Member must satisfy enum value set: [INBOUND, OUTBOUND]")

/-- `argsFixture` with a second entry whose subnet does not exist. -/
def argsMissingSubnet : CreateArgs :=
  { argsFixture with
    ip_addresses := [{ SubnetId := "subnet-aaaa", Ip := 167772421 },
                     { SubnetId := "subnet-nope", Ip := 167772421 }] }

/-- A second create request, identical except for its creator request id and
tags, used to exhibit the id collision. -/
def argsFixture2 : CreateArgs := { argsFixture with creator_request_id := "req-2", tags := none }

/-- The record the colliding create builds at time `"t1"`. -/
def epOverwrite : ResolverEndpoint :=
  { epFixture with
    creator_request_id := "req-2", creation_time := "t1", modification_time := "t1" }

/-- Repeated creations with the same arguments and the listed random-hex
values, keeping only the final backend. -/
def createManySameArgs (b : Backend) (hexes : List String) : Except RErr Backend :=
  hexes.foldlM (fun bb hx =>
    match create_resolver_endpoint bb ec2Fixture argsFixture hx "t0" with
    | (.ok _, bb2) => .ok bb2
    | (.error e, _) => .error e) b

/-! ### Theorems -/

theorem dsViolationClause_eq_claimedClause (t : ErrorTuple) (h : t.1 ≠ "password") :
    dsViolationClause t = claimedClause t := by
  simp only [dsViolationClause, claimedClause, if_neg h, String.append_assoc]
  rfl

theorem dsMsgLeader_eq_claimedHeader (n : Nat) (h : n ≠ 0) :
    dsMsgLeader n = claimedHeader n ++ ": " := by
  match n, h with
  | 1, _ => rfl
  | n + 2, _ =>
    simp only [dsMsgLeader, claimedHeader, String.append_assoc]
    rw [if_pos (by omega : n + 2 > 1), if_neg (by omega : ¬ n + 2 = 1)]
    rfl

theorem dsViolationClause_passwordVariant (a b : ErrorTuple)
    (h : passwordVariant a b) : dsViolationClause a = dsViolationClause b := by
  obtain ⟨h1, h2, h3⟩ := h
  by_cases hp : a.1 = "password"
  · have hb : b.1 = "password" := h1.symm.trans hp
    simp only [dsViolationClause, if_pos hp, if_pos hb, h1, h2]
  · have hb : ¬ b.1 = "password" := fun hc => hp (h1.trans hc)
    simp only [dsViolationClause, if_neg hp, if_neg hb, h1, h2, h3 hp]

/-- **C1 (amended).** For every non-empty list of violation tuples none of
which names the field `password`, the constructed exception carries code
`ValidationException` and its message is exactly the count header (singular
`error` exactly when there is one violation) followed by the `Value '<value>'
at '<field-name>' failed to satisfy constraint: Member must <constraint>`
clauses joined with `"; "`, in supplied order. -/
theorem C1_validation_message_format (ts : List ErrorTuple) (hne : ts ≠ [])
    (hpw : ∀ t ∈ ts, t.1 ≠ "password") :
    (DsValidationException ts).error_type = "ValidationException" ∧
    (DsValidationException ts).message = claimedMessage ts := by
  refine ⟨rfl, ?_⟩
  have hmap : ts.map dsViolationClause = ts.map claimedClause :=
    List.map_congr_left fun t ht => dsViolationClause_eq_claimedClause t (hpw t ht)
  have hlen : ts.length ≠ 0 := fun hc => hne (List.eq_nil_of_length_eq_zero hc)
  simp only [DsValidationException, claimedMessage, hmap,
    dsMsgLeader_eq_claimedHeader ts.length hlen, String.append_assoc]

/-- Witness for C1: a concrete two-violation list, evaluated. -/
theorem C1_validation_message_format_witness :
    (DsValidationException
      [("size", "big", "satisfy enum value set: [Small, Large]"),
       ("name", "bad", "satisfy regular expression pattern: ^([a-zA-Z0-9]+)$")]).message =
    claimedMessage
      [("size", "big", "satisfy enum value set: [Small, Large]"),
       ("name", "bad", "satisfy regular expression pattern: ^([a-zA-Z0-9]+)$")] :=
  (C1_validation_message_format _ (by decide) (by decide)).2

/-- **C1 counterexample.** For the single violation on a field literally named
`password` the rendered message elides the value, so it is not of the clause
form claim C1 states for every tuple. -/
theorem C1_password_clause_counterexample :
    (DsValidationException [("password", "hunter2", "satisfy p")]).message ≠
      claimedMessage [("password", "hunter2", "satisfy p")] ∧
    (DsValidationException [("password", "hunter2", "satisfy p")]).message =
      "1 validation error detected: Value at 'password' failed to satisfy " ++
        "constraint: Member must satisfy p" := by
  constructor
  · decide
  · decide

/-- **C4.** A violation tuple on the field literally named `password` renders
as `Value at 'password' ...` with the value elided, and the whole exception is
unchanged when any password-named tuple's value is replaced: the message does
not depend on password values. -/
theorem C4_password_value_elided (ts ts' : List ErrorTuple)
    (h : List.Forall₂ passwordVariant ts ts') :
    (∀ t ∈ ts, t.1 = "password" →
      dsViolationClause t =
        "Value at 'password' failed to satisfy constraint: Member must " ++ t.2.2) ∧
    DsValidationException ts = DsValidationException ts' := by
  constructor
  · intro t _ hp
    simp only [dsViolationClause, if_pos hp, hp, String.append_assoc]
    rfl
  · have hmap : ts.map dsViolationClause = ts'.map dsViolationClause := by
      induction h with
      | nil => rfl
      | cons ha _ ih =>
        simp only [List.map_cons, dsViolationClause_passwordVariant _ _ ha, ih]
    have hlen : ts.length = ts'.length := h.length_eq
    simp only [DsValidationException, hlen, hmap]

/-- Witness for C4: two single-violation lists differing only in the password
value produce identical exceptions. -/
theorem C4_password_value_elided_witness :
    DsValidationException [("password", "aaaaaaaa", "satisfy p")] =
      DsValidationException [("password", "zzzzzzzz", "satisfy p")] :=
  (C4_password_value_elided _ _
    (List.Forall₂.cons ⟨rfl, rfl, fun hc => absurd rfl hc⟩ List.Forall₂.nil)).2

/-! ### Helper lemmas on the dict model -/

theorem assocLookup_remove_self {α : Type} (l : List (String × α)) (k : String) :
    assocLookup (assocRemove l k) k = none := by
  induction l with
  | nil => rfl
  | cons p ps ih =>
    by_cases hp : p.1 = k
    · simpa [assocRemove, hp] using ih
    · simpa [assocRemove, assocLookup, hp] using ih

theorem assocLookup_remove_ne {α : Type} (l : List (String × α)) (k k' : String)
    (h : k' ≠ k) : assocLookup (assocRemove l k) k' = assocLookup l k' := by
  have hk : ¬ k = k' := fun hc => h hc.symm
  induction l with
  | nil => rfl
  | cons p ps ih =>
    by_cases hp : p.1 = k
    · simpa [assocRemove, assocLookup, hp, hk] using ih
    · by_cases hq : p.1 = k'
      · simp [assocRemove, assocLookup, hq, h]
      · simpa [assocRemove, assocLookup, hp, hq] using ih

theorem assocLookup_set_self {α : Type} (l : List (String × α)) (k : String) (v : α) :
    assocLookup (assocSet l k v) k = some v := by
  induction l with
  | nil => simp [assocSet, assocLookup]
  | cons p ps ih =>
    by_cases hp : p.1 = k
    · simp [assocSet, assocLookup, hp]
    · simpa [assocSet, assocLookup, hp] using ih

theorem assocLookup_set_ne {α : Type} (l : List (String × α)) (k k' : String) (v : α)
    (h : k' ≠ k) : assocLookup (assocSet l k v) k' = assocLookup l k' := by
  have hk : ¬ k = k' := fun hc => h hc.symm
  induction l with
  | nil => simp [assocSet, assocLookup, hk]
  | cons p ps ih =>
    by_cases hp : p.1 = k
    · simp [assocSet, assocLookup, hp, hk]
    · by_cases hq : p.1 = k'
      · simp [assocSet, assocLookup, hq, h]
      · simpa [assocSet, assocLookup, hp, hq] using ih

theorem assocSet_fresh {α : Type} (l : List (String × α)) (k : String) (v : α)
    (h : assocLookup l k = none) : assocSet l k v = l ++ [(k, v)] := by
  induction l with
  | nil => rfl
  | cons p ps ih =>
    by_cases hp : p.1 = k
    · simp [assocLookup, hp] at h
    · simp [assocLookup, hp] at h
      simp [assocSet, hp, ih h]

theorem assocSet_present_length {α : Type} (l : List (String × α)) (k : String) (v : α)
    (h : (assocLookup l k).isSome) : (assocSet l k v).length = l.length := by
  induction l with
  | nil => simp [assocLookup] at h
  | cons p ps ih =>
    by_cases hp : p.1 = k
    · simp [assocSet, hp]
    · simp [assocLookup, hp] at h
      simp [assocSet, hp, ih h]

theorem list_tags_tag_self (tagger : Tagger) (rid : String) (tags : Tags) :
    list_tags_for_resource (tag_resource tagger rid tags) rid =
      list_tags_for_resource tagger rid ++ tags := by
  unfold tag_resource list_tags_for_resource
  rw [assocLookup_set_self]
  rfl

/-! ### Lemmas on the backend operations -/

theorem mkResolverEndpoint_ok_spec (ec2 : Ec2Backend) (region endpoint_id crid : String)
    (sgs : List String) (dir : String) (ips : List IpAddressRequest)
    (name : Option String) (now : String) (ep : ResolverEndpoint)
    (h : mkResolverEndpoint ec2 region endpoint_id crid sgs dir ips name now = .ok ep) :
    ep.id = endpoint_id ∧ ep.status = "OPERATIONAL" ∧ ep.ip_address_count = 0 ∧
    ep.direction = dir := by
  cases ips with
  | nil => simp [mkResolverEndpoint] at h
  | cons x rest =>
    simp only [mkResolverEndpoint] at h
    cases hs : get_all_subnets ec2 x.SubnetId with
    | none => rw [hs] at h; simp at h
    | some s =>
      rw [hs] at h
      simp only [Except.ok.injEq] at h
      rw [← h]
      exact ⟨rfl, rfl, rfl, rfl⟩

theorem mkResolverEndpoint_ok_exists (ec2 : Ec2Backend) (region eid crid : String)
    (sgs : List String) (dir : String) (ips : List IpAddressRequest)
    (name : Option String) (now : String) (hne : ips ≠ [])
    (hlk : ∀ y ∈ ips, ∃ s, get_all_subnets ec2 y.SubnetId = some s) :
    ∃ ep, mkResolverEndpoint ec2 region eid crid sgs dir ips name now = .ok ep := by
  cases ips with
  | nil => exact absurd rfl hne
  | cons x rest =>
    obtain ⟨s, hs⟩ := hlk x (List.mem_cons_self x rest)
    simp only [mkResolverEndpoint, hs]
    exact ⟨_, rfl⟩

theorem verify_subnet_ips_ok (ec2 : Ec2Backend) (ips : List IpAddressRequest)
    (h : verify_subnet_ips ec2 ips = .ok ()) :
    2 ≤ ips.length ∧ verifySubnetIpsLoop ec2 ips = .ok () := by
  unfold verify_subnet_ips at h
  split at h
  · simp at h
  · next hl => exact ⟨by omega, h⟩

theorem verifySubnetIpsLoop_ok_lookup (ec2 : Ec2Backend) (ips : List IpAddressRequest)
    (h : verifySubnetIpsLoop ec2 ips = .ok ()) :
    ∀ y ∈ ips, ∃ s, get_all_subnets ec2 y.SubnetId = some s := by
  induction ips with
  | nil => intro y hy; cases hy
  | cons x rest ih =>
    simp only [verifySubnetIpsLoop] at h
    intro y hy
    split at h
    · simp at h
    · rename_i s hs
      split at h
      · rcases List.mem_cons.mp hy with h1 | h2
        · exact ⟨s, h1 ▸ hs⟩
        · exact ih h y h2
      · simp at h

theorem validate_args_error_shape (checks : List (String × String × Option String))
    (e : RErr) (h : validate_args checks = .error e) :
    ∃ m, e = .validationException m := by
  simp only [validate_args] at h
  split at h
  · simp at h
  · exact ⟨_, (Except.error.inj h).symm⟩

theorem verifySubnetIpsLoop_error_shape (ec2 : Ec2Backend) (ips : List IpAddressRequest)
    (e : RErr) (h : verifySubnetIpsLoop ec2 ips = .error e) :
    (∃ m, e = .invalidParameterException m) ∨ ∃ m, e = .invalidRequestException m := by
  induction ips with
  | nil => simp [verifySubnetIpsLoop] at h
  | cons x rest ih =>
    simp only [verifySubnetIpsLoop] at h
    split at h
    · exact Or.inl ⟨_, (Except.error.inj h).symm⟩
    · split at h
      · exact ih h
      · exact Or.inr ⟨_, (Except.error.inj h).symm⟩

theorem verify_subnet_ips_error_shape (ec2 : Ec2Backend) (ips : List IpAddressRequest)
    (e : RErr) (h : verify_subnet_ips ec2 ips = .error e) :
    (∃ m, e = .invalidParameterException m) ∨ ∃ m, e = .invalidRequestException m := by
  unfold verify_subnet_ips at h
  split at h
  · exact Or.inr ⟨_, (Except.error.inj h).symm⟩
  · exact verifySubnetIpsLoop_error_shape ec2 ips e h

theorem verifySecurityGroupLoop_error_shape (ec2 : Ec2Backend) (sgs : List String)
    (e : RErr) (h : verifySecurityGroupLoop ec2 sgs = .error e) :
    (∃ m, e = .invalidParameterException m) ∨ ∃ m, e = .resourceNotFoundException m := by
  induction sgs with
  | nil => simp [verifySecurityGroupLoop] at h
  | cons g rest ih =>
    simp only [verifySecurityGroupLoop] at h
    split at h
    · exact Or.inl ⟨_, (Except.error.inj h).symm⟩
    · split at h
      · exact ih h
      · exact Or.inr ⟨_, (Except.error.inj h).symm⟩

theorem verify_security_group_ids_error_shape (ec2 : Ec2Backend) (sgs : List String)
    (e : RErr) (h : verify_security_group_ids ec2 sgs = .error e) :
    (∃ m, e = .invalidParameterException m) ∨ ∃ m, e = .resourceNotFoundException m := by
  unfold verify_security_group_ids at h
  split at h
  · exact Or.inl ⟨_, (Except.error.inj h).symm⟩
  · exact verifySecurityGroupLoop_error_shape ec2 sgs e h

theorem verifySubnetIpsLoop_missing (ec2 : Ec2Backend) (pre : List IpAddressRequest)
    (x : IpAddressRequest) (rest : List IpAddressRequest)
    (hpre : ∀ y ∈ pre, ∃ s, get_all_subnets ec2 y.SubnetId = some s ∧
      ipInNetwork y.Ip s.cidr_block = true)
    (hx : get_all_subnets ec2 x.SubnetId = none) :
    verifySubnetIpsLoop ec2 (pre ++ x :: rest) =
      .error (.invalidParameterException
        ("The subnet ID '" ++ x.SubnetId ++ "' does not exist")) := by
  induction pre with
  | nil => simp [verifySubnetIpsLoop, hx]
  | cons y ys ih =>
    obtain ⟨s, hs1, hs2⟩ := hpre y (List.mem_cons_self y ys)
    simp only [List.cons_append, verifySubnetIpsLoop, hs1, hs2, if_true]
    exact ih fun z hz => hpre z (List.mem_cons_of_mem y hz)

theorem create_resolver_endpoint_cases (b : Backend) (ec2 : Ec2Backend)
    (args : CreateArgs) (randomHex now : String) :
    (∃ e, create_resolver_endpoint b ec2 args randomHex now = (.error e, b)) ∨
    (∃ ep, mkResolverEndpoint ec2 args.region (generatedEndpointId args.direction randomHex)
        args.creator_request_id args.security_group_ids args.direction args.ip_addresses
        args.name now = .ok ep ∧
      create_resolver_endpoint b ec2 args randomHex now =
        (.ok ep,
         { b with
           resolver_endpoints := insertEndpoint b.resolver_endpoints
             (generatedEndpointId args.direction randomHex) ep,
           tagger := tag_resource b.tagger (generatedEndpointId args.direction randomHex)
             (args.tags.getD []) })) := by
  unfold create_resolver_endpoint
  cases hv : createValidateArgs args with
  | error e => exact Or.inl ⟨e, rfl⟩
  | ok u =>
    cases u
    cases hs : verify_subnet_ips ec2 args.ip_addresses with
    | error e => exact Or.inl ⟨e, rfl⟩
    | ok u =>
      cases u
      cases hg : verify_security_group_ids ec2 args.security_group_ids with
      | error e => exact Or.inl ⟨e, rfl⟩
      | ok u =>
        cases u
        cases hm : mkResolverEndpoint ec2 args.region
            (generatedEndpointId args.direction randomHex) args.creator_request_id
            args.security_group_ids args.direction args.ip_addresses args.name now with
        | error e => exact Or.inl ⟨e, rfl⟩
        | ok ep => exact Or.inr ⟨ep, rfl, rfl⟩

theorem create_resolver_endpoint_ok (b : Backend) (ec2 : Ec2Backend) (args : CreateArgs)
    (randomHex now : String)
    (hv : createValidateArgs args = .ok ())
    (hs : verify_subnet_ips ec2 args.ip_addresses = .ok ())
    (hg : verify_security_group_ids ec2 args.security_group_ids = .ok ()) :
    ∃ ep, create_resolver_endpoint b ec2 args randomHex now =
      (.ok ep,
       { b with
         resolver_endpoints := insertEndpoint b.resolver_endpoints
           (generatedEndpointId args.direction randomHex) ep,
         tagger := tag_resource b.tagger (generatedEndpointId args.direction randomHex)
           (args.tags.getD []) }) := by
  obtain ⟨hlen, hloop⟩ := verify_subnet_ips_ok ec2 args.ip_addresses hs
  have hne : args.ip_addresses ≠ [] := by
    intro hc; rw [hc] at hlen; simp at hlen
  obtain ⟨ep, hmk⟩ := mkResolverEndpoint_ok_exists ec2 args.region
    (generatedEndpointId args.direction randomHex) args.creator_request_id
    args.security_group_ids args.direction args.ip_addresses args.name now hne
    (verifySubnetIpsLoop_ok_lookup ec2 args.ip_addresses hloop)
  refine ⟨ep, ?_⟩
  unfold create_resolver_endpoint
  rw [hv, hs, hg, hmk]

theorem create_no_foreign_subnet_error (b : Backend) (ec2 : Ec2Backend)
    (args : CreateArgs) (randomHex now : String) (sid : String) :
    (create_resolver_endpoint b ec2 args randomHex now).1 ≠
      .error (.invalidSubnetIdError sid) := by
  unfold create_resolver_endpoint
  cases hv : createValidateArgs args with
  | error e =>
    intro hc
    obtain ⟨m, hm⟩ := validate_args_error_shape _ e hv
    rw [hm] at hc
    simp at hc
  | ok u =>
    cases u
    cases hs : verify_subnet_ips ec2 args.ip_addresses with
    | error e =>
      intro hc
      rcases verify_subnet_ips_error_shape ec2 args.ip_addresses e hs with ⟨m, hm⟩ | ⟨m, hm⟩ <;>
        (rw [hm] at hc; simp at hc)
    | ok u =>
      cases u
      cases hg : verify_security_group_ids ec2 args.security_group_ids with
      | error e =>
        intro hc
        rcases verify_security_group_ids_error_shape ec2 args.security_group_ids e hg with
          ⟨m, hm⟩ | ⟨m, hm⟩ <;> (rw [hm] at hc; simp at hc)
      | ok u =>
        cases u
        obtain ⟨hlen, hloop⟩ := verify_subnet_ips_ok ec2 args.ip_addresses hs
        have hne : args.ip_addresses ≠ [] := by
          intro hceq; rw [hceq] at hlen; simp at hlen
        obtain ⟨ep, hmk⟩ := mkResolverEndpoint_ok_exists ec2 args.region
          (generatedEndpointId args.direction randomHex) args.creator_request_id
          args.security_group_ids args.direction args.ip_addresses args.name now hne
          (verifySubnetIpsLoop_ok_lookup ec2 args.ip_addresses hloop)
        rw [hmk]
        intro hc
        simp at hc

theorem delete_resolver_endpoint_found (b : Backend) (rid : String)
    (ep : ResolverEndpoint)
    (hwf : validate_endpoint_id rid = none)
    (hlook : lookupEndpoint b.resolver_endpoints rid = some ep) :
    delete_resolver_endpoint b rid =
      (.ok { ep with status := "DELETING" },
       { b with
         tagger := delete_all_tags_for_resource b.tagger rid,
         resolver_endpoints := removeEndpoint b.resolver_endpoints rid }) := by
  have hval : validate_resolver_endpoint_id b rid = .ok () := by
    unfold validate_resolver_endpoint_id
    simp [validate_args, hwf, hlook]
  unfold delete_resolver_endpoint
  rw [hval, hlook]

theorem delete_resolver_endpoint_absent (b : Backend) (rid : String)
    (hwf : validate_endpoint_id rid = none)
    (habs : lookupEndpoint b.resolver_endpoints rid = none) :
    delete_resolver_endpoint b rid =
      (.error (.resourceNotFoundException
        ("Resolver endpoint with ID '" ++ rid ++ "' does not exist")), b) := by
  have hval : validate_resolver_endpoint_id b rid =
      .error (.resourceNotFoundException
        ("Resolver endpoint with ID '" ++ rid ++ "' does not exist")) := by
    unfold validate_resolver_endpoint_id
    simp [validate_args, hwf, habs]
  unfold delete_resolver_endpoint
  rw [hval]

theorem generatedEndpointId_inbound (randomHex : String) :
    generatedEndpointId "INBOUND" randomHex = "rslvr-in-" ++ randomHex := by
  simp only [generatedEndpointId, if_pos rfl, String.append_assoc]
  rfl

theorem generatedEndpointId_outbound (direction randomHex : String)
    (h : direction ≠ "INBOUND") :
    generatedEndpointId direction randomHex = "rslvr-out-" ++ randomHex := by
  simp only [generatedEndpointId, if_neg h, String.append_assoc]
  rfl

/-! ### The claims -/

/-- **C2.** `create_resolver_endpoint` commits atomically: whenever any step
fails the backend comes back unchanged — no registry entry, no tags attached;
on success the new state is exactly the old one with the single
fully-constructed record inserted under its id and its tags attached (and for
a fresh id the registry grows by exactly that one appended entry). -/
theorem C2_create_atomic (b : Backend) (ec2 : Ec2Backend) (args : CreateArgs)
    (randomHex now : String) :
    (∀ e, (create_resolver_endpoint b ec2 args randomHex now).1 = .error e →
      (create_resolver_endpoint b ec2 args randomHex now).2 = b) ∧
    (∀ ep, (create_resolver_endpoint b ec2 args randomHex now).1 = .ok ep →
      (create_resolver_endpoint b ec2 args randomHex now).2 =
        { b with
          resolver_endpoints := insertEndpoint b.resolver_endpoints ep.id ep,
          tagger := tag_resource b.tagger ep.id (args.tags.getD []) } ∧
      list_tags_for_resource
          (create_resolver_endpoint b ec2 args randomHex now).2.tagger ep.id =
        list_tags_for_resource b.tagger ep.id ++ args.tags.getD [] ∧
      (lookupEndpoint b.resolver_endpoints ep.id = none →
        (create_resolver_endpoint b ec2 args randomHex now).2.resolver_endpoints =
          b.resolver_endpoints ++ [(ep.id, ep)])) := by
  rcases create_resolver_endpoint_cases b ec2 args randomHex now with ⟨e, hc⟩ | ⟨ep0, hmk, hc⟩
  · constructor
    · intro e' _; rw [hc]
    · intro ep hep; rw [hc] at hep; simp at hep
  · obtain ⟨hid, _, _, _⟩ := mkResolverEndpoint_ok_spec _ _ _ _ _ _ _ _ _ _ hmk
    constructor
    · intro e' he'; rw [hc] at he'; simp at he'
    · intro ep hep
      rw [hc] at hep
      simp only [Except.ok.injEq] at hep
      subst hep
      refine ⟨by rw [hc, hid], ?_, ?_⟩
      · simp only [hc, hid]
        exact list_tags_tag_self _ _ _
      · intro hfresh
        rw [hid] at hfresh
        simp only [hc, hid, insertEndpoint]
        rw [assocSet_fresh _ _ _ hfresh]

/-- Witness for C2: a failing create (bad direction) leaves the backend as it
was; a succeeding one appends exactly the one new record. -/
theorem C2_create_atomic_witness :
    (create_resolver_endpoint emptyBackend ec2Fixture argsBadDirection
      "abcdef0123456789a" "t0").2 = emptyBackend ∧
    (create_resolver_endpoint emptyBackend ec2Fixture argsFixture
      "abcdef0123456789a" "t0").2.resolver_endpoints =
      emptyBackend.resolver_endpoints ++ [(epFixture.id, epFixture)] :=
  ⟨(C2_create_atomic emptyBackend ec2Fixture argsBadDirection "abcdef0123456789a" "t0").1
      errBadDirection (by decide),
   ((C2_create_atomic emptyBackend ec2Fixture argsFixture "abcdef0123456789a" "t0").2
      epFixture (by decide)).2.2 (by decide)⟩

/-- **C3.** Deleting an existing endpoint removes the record and all its tags
in the same step, and returns a final-state snapshot: a record with the given
id whose status is DELETING. No registry record ever shows DELETING: whatever
survives a delete was already in the registry before it, unchanged, and the
deleted record itself is gone the moment its status flips (tags attached via
the tagging interface are retrievable under the id before the delete — the
`tag_resource`/`list_tags_for_resource` round-trip conjunct — and gone after). -/
theorem C3_delete_removes_and_snapshots (b : Backend) (rid : String)
    (ep : ResolverEndpoint)
    (hwf : validate_endpoint_id rid = none)
    (hlook : lookupEndpoint b.resolver_endpoints rid = some ep)
    (hid : ep.id = rid) :
    (delete_resolver_endpoint b rid).1 = .ok { ep with status := "DELETING" } ∧
    ({ ep with status := "DELETING" } : ResolverEndpoint).id = rid ∧
    ({ ep with status := "DELETING" } : ResolverEndpoint).status = "DELETING" ∧
    lookupEndpoint (delete_resolver_endpoint b rid).2.resolver_endpoints rid = none ∧
    list_tags_for_resource (delete_resolver_endpoint b rid).2.tagger rid = [] ∧
    (∀ tg ts, list_tags_for_resource (tag_resource tg rid ts) rid =
      list_tags_for_resource tg rid ++ ts) ∧
    (∀ k e', lookupEndpoint (delete_resolver_endpoint b rid).2.resolver_endpoints k =
        some e' → lookupEndpoint b.resolver_endpoints k = some e') := by
  have hdel := delete_resolver_endpoint_found b rid ep hwf hlook
  refine ⟨by rw [hdel], hid, rfl, ?_, ?_, fun tg ts => list_tags_tag_self tg rid ts, ?_⟩
  · simp only [hdel, lookupEndpoint, removeEndpoint]
    exact assocLookup_remove_self _ _
  · simp only [hdel, list_tags_for_resource, delete_all_tags_for_resource]
    rw [assocLookup_remove_self]
    rfl
  · intro k e' hk
    simp only [hdel, lookupEndpoint, removeEndpoint] at hk
    by_cases hkr : k = rid
    · rw [hkr, assocLookup_remove_self] at hk
      exact Option.noConfusion hk
    · rw [assocLookup_remove_ne _ _ _ hkr] at hk
      exact hk

/-- Witness for C3: deleting the fixture endpoint returns the DELETING
snapshot and leaves no tags under its id. -/
theorem C3_delete_witness :
    (delete_resolver_endpoint b1 "rslvr-in-abcdef0123456789a").1 =
      .ok { epFixture with status := "DELETING" } ∧
    list_tags_for_resource
      (delete_resolver_endpoint b1 "rslvr-in-abcdef0123456789a").2.tagger
      "rslvr-in-abcdef0123456789a" = [] := by
  have h := C3_delete_removes_and_snapshots b1 "rslvr-in-abcdef0123456789a" epFixture
    (by decide) (by decide) (by decide)
  exact ⟨h.1, h.2.2.2.2.1⟩

/-- **C5.** A create whose format validation passes and that references a
nonexistent subnet id (first bad entry, earlier entries fine) fails with this
service's `InvalidParameterException` citing that subnet id, the backend
unchanged; and no call of `create_resolver_endpoint` ever surfaces the foreign
EC2 `InvalidSubnetIdError` to its caller. -/
theorem C5_missing_subnet_relabelled (b : Backend) (ec2 : Ec2Backend)
    (args : CreateArgs) (randomHex now : String) (x : IpAddressRequest)
    (pre rest : List IpAddressRequest)
    (hv : createValidateArgs args = .ok ())
    (hips : args.ip_addresses = pre ++ x :: rest)
    (hlen : 2 ≤ args.ip_addresses.length)
    (hpre : ∀ y ∈ pre, ∃ s, get_all_subnets ec2 y.SubnetId = some s ∧
      ipInNetwork y.Ip s.cidr_block = true)
    (hx : get_all_subnets ec2 x.SubnetId = none) :
    create_resolver_endpoint b ec2 args randomHex now =
      (.error (.invalidParameterException
        ("The subnet ID '" ++ x.SubnetId ++ "' does not exist")), b) ∧
    (∀ (b' : Backend) (ec2' : Ec2Backend) (args' : CreateArgs) (rh nw sid : String),
      (create_resolver_endpoint b' ec2' args' rh nw).1 ≠
        .error (.invalidSubnetIdError sid)) := by
  have hverr : verify_subnet_ips ec2 args.ip_addresses =
      .error (.invalidParameterException
        ("The subnet ID '" ++ x.SubnetId ++ "' does not exist")) := by
    unfold verify_subnet_ips
    rw [if_neg (by omega : ¬ args.ip_addresses.length < 2), hips]
    exact verifySubnetIpsLoop_missing ec2 pre x rest hpre hx
  constructor
  · unfold create_resolver_endpoint
    rw [hv, hverr]
  · exact fun b' ec2' args' rh nw sid =>
      create_no_foreign_subnet_error b' ec2' args' rh nw sid

/-- Witness for C5: the fixture request whose second entry names the absent
`subnet-nope` fails with the relabelled exception, backend untouched. -/
theorem C5_missing_subnet_witness :
    create_resolver_endpoint emptyBackend ec2Fixture argsMissingSubnet
      "abcdef0123456789a" "t0" =
      (.error (.invalidParameterException "The subnet ID 'subnet-nope' does not exist"),
       emptyBackend) :=
  (C5_missing_subnet_relabelled emptyBackend ec2Fixture argsMissingSubnet
    "abcdef0123456789a" "t0" { SubnetId := "subnet-nope", Ip := 167772421 }
    [{ SubnetId := "subnet-aaaa", Ip := 167772421 }] []
    (by decide) (by decide) (by decide)
    (fun y hy => by
      simp only [List.mem_singleton] at hy
      subst hy
      exact ⟨subnetA, by decide, by decide⟩)
    (by decide)).1

/-- **C6.** Deleting a well-formed endpoint id that is not in the registry
fails with `ResourceNotFoundException` naming that id and leaves the backend
unchanged; deleting an existing id twice fails the second time the same way. -/
theorem C6_delete_not_found (b : Backend) (rid : String)
    (hwf : validate_endpoint_id rid = none)
    (habs : lookupEndpoint b.resolver_endpoints rid = none) :
    delete_resolver_endpoint b rid =
      (.error (.resourceNotFoundException
        ("Resolver endpoint with ID '" ++ rid ++ "' does not exist")), b) ∧
    (∀ (b' : Backend) (ep : ResolverEndpoint),
      lookupEndpoint b'.resolver_endpoints rid = some ep →
      delete_resolver_endpoint (delete_resolver_endpoint b' rid).2 rid =
        (.error (.resourceNotFoundException
          ("Resolver endpoint with ID '" ++ rid ++ "' does not exist")),
         (delete_resolver_endpoint b' rid).2)) := by
  refine ⟨delete_resolver_endpoint_absent b rid hwf habs, ?_⟩
  intro b' ep hl
  have hdel := delete_resolver_endpoint_found b' rid ep hwf hl
  have habs2 : lookupEndpoint
      (delete_resolver_endpoint b' rid).2.resolver_endpoints rid = none := by
    simp only [hdel, lookupEndpoint, removeEndpoint]
    exact assocLookup_remove_self _ _
  exact delete_resolver_endpoint_absent _ rid hwf habs2

/-- Witness for C6: a missing id fails with the not-found error naming it, and
a second delete of the fixture id right after the first fails the same way. -/
theorem C6_delete_not_found_witness :
    delete_resolver_endpoint emptyBackend "rslvr-in-abcdef0123456789a" =
      (.error (.resourceNotFoundException
        "Resolver endpoint with ID 'rslvr-in-abcdef0123456789a' does not exist"),
       emptyBackend) ∧
    delete_resolver_endpoint
        (delete_resolver_endpoint b1 "rslvr-in-abcdef0123456789a").2
        "rslvr-in-abcdef0123456789a" =
      (.error (.resourceNotFoundException
        "Resolver endpoint with ID 'rslvr-in-abcdef0123456789a' does not exist"),
       (delete_resolver_endpoint b1 "rslvr-in-abcdef0123456789a").2) := by
  have h := C6_delete_not_found emptyBackend "rslvr-in-abcdef0123456789a"
    (by decide) (by decide)
  exact ⟨h.1, h.2 b1 epFixture (by decide)⟩

/-- **C7 (amended).** A successfully created endpoint's id is exactly
`rslvr-in-<hex>` for direction INBOUND and `rslvr-out-<hex>` otherwise, with
the 17-character hex suffix `get_random_hex(17)` supplied; but no collision
check is performed: when the generated id already exists in the registry the
create still uses it, silently replacing the existing entry (registry size
unchanged) instead of regenerating. -/
theorem C7_endpoint_id_format_no_regen (b : Backend) (ec2 : Ec2Backend)
    (args : CreateArgs) (randomHex now : String) (ep : ResolverEndpoint)
    (hok : (create_resolver_endpoint b ec2 args randomHex now).1 = .ok ep)
    (hlen : randomHex.length = 17)
    (hhex : randomHex.data.all isLowerHexDigit = true) :
    ep.id = generatedEndpointId args.direction randomHex ∧
    (args.direction = "INBOUND" → ep.id = "rslvr-in-" ++ randomHex) ∧
    (args.direction ≠ "INBOUND" → ep.id = "rslvr-out-" ++ randomHex) ∧
    ((lookupEndpoint b.resolver_endpoints ep.id).isSome = true →
      (create_resolver_endpoint b ec2 args randomHex now).2.resolver_endpoints.length =
        b.resolver_endpoints.length) := by
  rcases create_resolver_endpoint_cases b ec2 args randomHex now with ⟨e, hc⟩ | ⟨ep0, hmk, hc⟩
  · rw [hc] at hok; simp at hok
  · rw [hc] at hok
    simp only [Except.ok.injEq] at hok
    subst hok
    obtain ⟨hid, _, _, _⟩ := mkResolverEndpoint_ok_spec _ _ _ _ _ _ _ _ _ _ hmk
    refine ⟨hid, ?_, ?_, ?_⟩
    · intro hdir; rw [hid, hdir, generatedEndpointId_inbound]
    · intro hdir; rw [hid, generatedEndpointId_outbound _ _ hdir]
    · intro hpresent
      rw [hid] at hpresent
      simp only [hc, insertEndpoint]
      exact assocSet_present_length _ _ _ hpresent

/-- Witness for C7's amended statement: the fixture create yields the id
`rslvr-in-` followed by the supplied 17 hex characters. -/
theorem C7_endpoint_id_format_witness :
    epFixture.id = "rslvr-in-" ++ "abcdef0123456789a" :=
  (C7_endpoint_id_format_no_regen emptyBackend ec2Fixture argsFixture
    "abcdef0123456789a" "t0" epFixture (by decide) (by decide) (by decide)).2.1 rfl

/-- **C7 counterexample.** With `rslvr-in-abcdef0123456789a` already in the
registry, a create handed the same random hex succeeds with that very id — it
is not regenerated — and the pre-existing record is silently overwritten, the
registry size unchanged. -/
theorem C7_collision_counterexample :
    lookupEndpoint b1.resolver_endpoints "rslvr-in-abcdef0123456789a" = some epFixture ∧
    (create_resolver_endpoint b1 ec2Fixture argsFixture2
      "abcdef0123456789a" "t1").1 = .ok epOverwrite ∧
    epOverwrite.id = "rslvr-in-abcdef0123456789a" ∧
    (create_resolver_endpoint b1 ec2Fixture argsFixture2
      "abcdef0123456789a" "t1").2.resolver_endpoints =
      [("rslvr-in-abcdef0123456789a", epOverwrite)] := by
  refine ⟨by decide, by decide, by decide, by decide⟩

/-- **C8 (amended).** No quota is enforced on resolver endpoints: a create
whose validation and cross-service checks pass succeeds whatever the current
registry size, and (for a fresh id) grows the registry by one — so N valid
creates are followed by an equally successful (N+1)-th, with no
limit-exceeded exception (the source imports one only as a TODO comment). -/
theorem C8_no_quota (b : Backend) (ec2 : Ec2Backend) (args : CreateArgs)
    (randomHex now : String)
    (hv : createValidateArgs args = .ok ())
    (hs : verify_subnet_ips ec2 args.ip_addresses = .ok ())
    (hg : verify_security_group_ids ec2 args.security_group_ids = .ok ()) :
    (∃ ep, (create_resolver_endpoint b ec2 args randomHex now).1 = .ok ep) ∧
    (lookupEndpoint b.resolver_endpoints (generatedEndpointId args.direction randomHex) =
        none →
      (create_resolver_endpoint b ec2 args randomHex now).2.resolver_endpoints.length =
        b.resolver_endpoints.length + 1) := by
  obtain ⟨ep, hc⟩ := create_resolver_endpoint_ok b ec2 args randomHex now hv hs hg
  constructor
  · exact ⟨ep, by rw [hc]⟩
  · intro hfresh
    simp only [hc, insertEndpoint]
    rw [assocSet_fresh _ _ _ hfresh]
    simp

/-- Witness for C8's amended statement: the fixture create adds one record to
the empty registry. -/
theorem C8_no_quota_witness :
    (create_resolver_endpoint emptyBackend ec2Fixture argsFixture
      "abcdef0123456789a" "t0").2.resolver_endpoints.length =
      emptyBackend.resolver_endpoints.length + 1 :=
  (C8_no_quota emptyBackend ec2Fixture argsFixture "abcdef0123456789a" "t0"
    (by decide) (by decide) (by decide)).2 (by decide)

/-- **C8 counterexample.** Taking the real service quota N = 4: five
successive valid creates all succeed and leave the registry at five records —
the fifth call does not fail with any limit-exceeded exception and the
registry is not held at four. -/
theorem C8_no_quota_counterexample :
    (createManySameArgs emptyBackend
      ["00000000000000001", "00000000000000002", "00000000000000003",
       "00000000000000004", "00000000000000005"]).map
        (fun bb => bb.resolver_endpoints.length) = .ok 5 := by
  rfl

/-- **C9 (code bug).** `get_resolver_endpoint` is a stub whose body is `pass`:
it returns no data even for an id present in the registry, contradicting its
own docstring ("Return info for specified resolver endpoint.") and the
registry contract `get(id) -> record | NotFound`. -/
theorem C9_get_returns_nothing :
    get_resolver_endpoint b1 "rslvr-in-abcdef0123456789a" = none ∧
    lookupEndpoint b1.resolver_endpoints "rslvr-in-abcdef0123456789a" =
      some epFixture ∧
    (∀ (b : Backend) (rid : String), get_resolver_endpoint b rid = none) :=
  ⟨rfl, by decide, fun _ _ => rfl⟩

/-- **C10.** Every successfully created endpoint reports `IpAddressCount = 0`
in its description no matter how many `ip_addresses` entries were supplied,
and its status is OPERATIONAL immediately on creation — no CREATING state is
observable. -/
theorem C10_ipcount_zero_status_operational (b : Backend) (ec2 : Ec2Backend)
    (args : CreateArgs) (randomHex now : String) (ep : ResolverEndpoint)
    (hok : (create_resolver_endpoint b ec2 args randomHex now).1 = .ok ep) :
    ep.description.IpAddressCount = 0 ∧ ep.ip_address_count = 0 ∧
    ep.status = "OPERATIONAL" ∧ ep.description.Status = "OPERATIONAL" := by
  rcases create_resolver_endpoint_cases b ec2 args randomHex now with ⟨e, hc⟩ | ⟨ep0, hmk, hc⟩
  · rw [hc] at hok; simp at hok
  · rw [hc] at hok
    simp only [Except.ok.injEq] at hok
    subst hok
    obtain ⟨_, hst, hcnt, _⟩ := mkResolverEndpoint_ok_spec _ _ _ _ _ _ _ _ _ _ hmk
    exact ⟨rfl, hcnt, hst, hst⟩

/-- Witness for C10: the fixture endpoint, built from a two-entry
`ip_addresses`, describes itself with `IpAddressCount = 0` and is OPERATIONAL. -/
theorem C10_ipcount_witness :
    epFixture.description.IpAddressCount = 0 ∧ epFixture.status = "OPERATIONAL" := by
  have h := C10_ipcount_zero_status_operational emptyBackend ec2Fixture argsFixture
    "abcdef0123456789a" "t0" epFixture (by decide)
  exact ⟨h.1, h.2.2.1⟩

end Moto
